import Mathlib

/-!
Verification of the BetterHosts plugin (src/plugins/betterhosts/__init__.py),
a hosts-file updater: it fetches a bulk hosts document and per-domain DNS
records, appends a marker-delimited block to /etc/hosts, and can strip that
block again.  Files are modelled as lists of lines (strings without the
trailing newline); Python exceptions are modelled explicitly.
-/

namespace BetterHosts

/-- Python whitespace characters recognised by str.strip() / str.split()
(ASCII fragment: space, tab, newline, carriage return, vertical tab, form feed). -/
def isPySpace (c : Char) : Bool :=
  c = ' ' || c = '\t' || c = '\n' || c = '\r' || c = Char.ofNat 11 || c = Char.ofNat 12

/-- Python str.strip(): drop leading and trailing whitespace. -/
def pyStrip (s : String) : String :=
  String.mk (((s.toList.dropWhile isPySpace).reverse.dropWhile isPySpace).reverse)

/-- The literal start marker line written by _write_hosts and recognised by
_clear_system_hosts. -/
def startMarker : String := "# BetterHostsPlugin"

/-- The literal end marker line. -/
def endMarker : String := "# BetterHostsPlugin End"

/-- Python "\n".join(content). -/
def joinNl : List String → String
  | [] => ""
  | [s] => s
  | s :: rest => s ++ "\n" ++ joinNl rest

/-- Split a character list at newline characters (text to lines). -/
def splitNl : List Char → List (List Char)
  | [] => [[]]
  | c :: cs =>
    if c = '\n' then [] :: splitNl cs
    else
      match splitNl cs with
      | [] => [[c]]
      | w :: ws => (c :: w) :: ws

/-- The lines of a text. -/
def linesOfText (s : String) : List String :=
  (splitNl s.toList).map (fun w => String.mk w)

/-- Result of one per-domain DNS-API request in update_hosts: HTTP 200 with the
extracted records.A addresses, a non-200 status, or a raised exception. -/
inductive FetchResult where
  | ok (addrs : List String)
  | badStatus
  | exn
deriving DecidableEq

/-- Lines contributed by one domain in the update_hosts loop: one
"{ip}\t{domain}" line per address on success, nothing on a non-200 status or
an exception (the domain only joins error_domains). -/
def domainLines (d : String) : FetchResult → List String
  | .ok addrs => addrs.map (fun ip => ip ++ "\t" ++ d)
  | .badStatus => []
  | .exn => []

/-- The hosts_content list as built by update_hosts (lines 79-100): start from the bulk
GitHub text when that fetch succeeded, then loop over the domain list in order,
appending the per-domain lines. -/
def buildContent (bulk : Option String) (res : String → FetchResult)
    (domains : List String) : List String :=
  let init := match bulk with | some t => [t] | none => []
  domains.foldl (fun acc d => acc ++ domainLines d (res d)) init

/-- The lines of the block body written by _write_hosts: it writes
"\n".join(hosts_content), so multi-line elements (the bulk text) split into
their own lines. -/
def blockLines (content : List String) : List String :=
  linesOfText (joinNl content)

/-- The writer _write_hosts: it opens /etc/hosts in append mode and appends the start marker
line, the joined content, and the end marker line.  Its try/except catches any
I/O failure, leaving the file as it was (io_ok models whether the I/O
succeeded).  Note: it appends — it does not strip an existing block first. -/
def write_hosts (io_ok : Bool) (file content : List String) : List String :=
  if io_ok then file ++ startMarker :: (blockLines content ++ [endMarker]) else file

/-- Python exceptions that the plugin's code can raise or propagate. -/
inductive PyExn where
  | attributeError
  | schedulerNotRunning
  | schedulerAlreadyRunning
deriving DecidableEq

/-- update_hosts after the initial read (lines 79-106): build hosts_content
from the fetch results, and write it (append) only when it is non-empty. -/
def update_core (file : List String) (bulk : Option String)
    (res : String → FetchResult) (domains : List String) (io_ok : Bool) :
    List String :=
  let hosts_content := buildContent bulk res domains
  if hosts_content.isEmpty then file else write_hosts io_ok file hosts_content

/-- update_hosts (lines 72-106).  Its first statement is
system_hosts = self._read_system_hosts(), outside any try/except; read_exn is
the outcome of that attribute lookup and call.  If it raises, the exception
propagates and the file is untouched; otherwise the cycle runs (the read
result itself is never used afterwards: _write_hosts appends). -/
def update_hosts (read_exn : Option PyExn) (file : List String)
    (bulk : Option String) (res : String → FetchResult) (domains : List String)
    (io_ok : Bool) : Option PyExn × List String :=
  match read_exn with
  | some e => (some e, file)
  | none => (none, update_core file bulk res domains io_ok)

/-- No method named _read_system_hosts is defined anywhere in the repository,
so in the program as written the attribute lookup at the top of update_hosts
raises AttributeError on every call. -/
def read_system_hosts_exn : Option PyExn := some PyExn.attributeError

/-- The _clear_system_hosts line filter (lines 126-134): a flag write starts true;
a line stripping to the start marker turns it off, one stripping to the end
marker turns it on, and marker lines themselves are never written back. -/
def clearLoop : Bool → List String → List String
  | _, [] => []
  | w, l :: ls =>
    if pyStrip l = startMarker then clearLoop false ls
    else if pyStrip l = endMarker then clearLoop true ls
    else if w then l :: clearLoop w ls
    else clearLoop w ls

/-- The _clear_system_hosts operation on the file's lines (its try/except means an I/O
failure leaves the file unchanged; see clear_file). -/
def clear_system_hosts (ls : List String) : List String := clearLoop true ls

/-- The _clear_system_hosts operation including its I/O outcome. -/
def clear_file (io_ok : Bool) (ls : List String) : List String :=
  if io_ok then clear_system_hosts ls else ls

/-- An APScheduler interval trigger, as built in setup_scheduler. -/
inductive Trigger where
  | hours (n : Nat)
  | days (n : Nat)
  | weeks (n : Nat)
deriving DecidableEq

/-- A BackgroundScheduler: its job list and whether it has been started.
Modelled from APScheduler's documented 3.x semantics (add_job schedules an
additional job; start and shutdown guard on the running state). -/
structure Sched where
  jobs : List Trigger
  running : Bool
deriving DecidableEq

/-- The scheduler.add_job(func, trigger) call: appends a job; an existing scheduler's
jobs are kept. -/
def add_job (s : Sched) (t : Trigger) : Sched :=
  { s with jobs := s.jobs ++ [t] }

/-- The scheduler.start() call: raises SchedulerAlreadyRunningError when the scheduler
is already running (APScheduler BaseScheduler.start). -/
def sched_start (s : Sched) : Except PyExn Sched :=
  if s.running then .error .schedulerAlreadyRunning
  else .ok { s with running := true }

/-- The scheduler.shutdown() call: raises SchedulerNotRunningError when the scheduler
is not running (APScheduler BaseScheduler.shutdown). -/
def sched_shutdown (s : Sched) : Except PyExn Sched :=
  if s.running then .ok { s with running := false }
  else .error .schedulerNotRunning

/-- The plugin's mutable attributes used by the lifecycle code. -/
structure PluginState where
  enabled : Bool
  domain_list : List String
  schedule_interval : Option String
  scheduler : Option Sched
deriving DecidableEq

/-- The class-level default _domain_list (line 24). -/
def defaultDomainList : List String := ["api.themoviedb.org", "image.tmdb.org"]

/-- The interval selection in setup_scheduler (lines 59-65): only the three
literal cadence strings yield a trigger. -/
def intervalOf : Option String → Option Trigger
  | some "1hour" => some (.hours 1)
  | some "1day" => some (.days 1)
  | some "1week" => some (.weeks 1)
  | _ => none

/-- setup_scheduler (lines 52-70): create the scheduler only if none exists
yet, then — when the cadence is recognised — add_job the update job and
start().  Nothing ever removes previously added jobs, and start() on an
already-running scheduler raises after the job was added. -/
def setup_scheduler (st : PluginState) : Option PyExn × PluginState :=
  let s := st.scheduler.getD { jobs := [], running := false }
  match intervalOf st.schedule_interval with
  | none => (none, { st with scheduler := some s })
  | some t =>
    let s1 := add_job s t
    match sched_start s1 with
    | .error e => (some e, { st with scheduler := some s1 })
    | .ok s2 => (none, { st with scheduler := some s2 })

/-- stop_service (lines 43-50): if a scheduler object exists, shutdown() it
(unguarded — a raise aborts the method before the clear), then clear the
plugin's hosts records. -/
def stop_service (st : PluginState) (file : List String) (io_ok : Bool) :
    Option PyExn × PluginState × List String :=
  match st.scheduler with
  | none => (none, st, clear_file io_ok file)
  | some s =>
    match sched_shutdown s with
    | .error e => (some e, st, file)
    | .ok s1 => (none, { st with scheduler := some s1 }, clear_file io_ok file)

/-- Scanner for Python str.split() with no separator: cur holds the reversed
characters of the word being read; whitespace ends the current word. -/
def wordsAux : List Char → List Char → List (List Char)
  | cur, [] => if cur.isEmpty then [] else [cur.reverse]
  | cur, c :: cs =>
    if isPySpace c then
      if cur.isEmpty then wordsAux [] cs else cur.reverse :: wordsAux [] cs
    else wordsAux (c :: cur) cs

/-- Python str.split() with no separator: the maximal runs of non-whitespace
characters. -/
def words (l : List Char) : List (List Char) := wordsAux [] l

/-- The custom_domains.split() call (line 33). -/
def pySplit (s : String) : List String :=
  (words s.toList).map (fun w => String.mk w)

/-- The domain-list update in init_plugin (line 33):
custom_domains.split() if custom_domains else self._domain_list. -/
def next_domain_list (current : List String) (custom : String) : List String :=
  if custom = "" then current else pySplit custom

/-- The configuration dict handed to init_plugin; a missing key makes
config.get return the coded default. -/
structure Config where
  enabled : Option Bool
  domain_list : Option String
  schedule_interval : Option String

/-- init_plugin (lines 30-41): when a (truthy) config is given, store the
settings; when enabled, run update_hosts then setup_scheduler (an exception
from the update propagates before the scheduler is touched); otherwise only
clear the plugin's hosts records — the scheduler is not touched on this path. -/
def init_plugin (st : PluginState) (config : Option Config)
    (read_exn : Option PyExn) (bulk : Option String)
    (res : String → FetchResult) (io_ok : Bool) (file : List String) :
    Option PyExn × PluginState × List String :=
  match config with
  | none => (none, st, file)
  | some c =>
    let st1 : PluginState :=
      { st with
        enabled := c.enabled.getD false
        domain_list := next_domain_list st.domain_list (c.domain_list.getD "")
        schedule_interval := some (c.schedule_interval.getD "1hour") }
    if st1.enabled then
      match update_hosts read_exn file bulk res st1.domain_list io_ok with
      | (some e, file1) => (some e, st1, file1)
      | (none, file1) =>
        let r := setup_scheduler st1
        (r.1, r.2, file1)
    else
      (none, st1, clear_file io_ok file)

/-- Number of lines stripping to the start marker: each written block
contributes exactly one. -/
def markerCount (file : List String) : Nat :=
  file.countP (fun l => pyStrip l == startMarker)

theorem foldl_append_flatMap (f : String → List String) :
    ∀ (l : List String) (acc : List String),
      l.foldl (fun a d => a ++ f d) acc = acc ++ l.flatMap f
  | [], acc => by simp
  | d :: l, acc => by
    rw [List.foldl_cons, foldl_append_flatMap f l, List.flatMap_cons,
      List.append_assoc]

theorem clearLoop_true_no_marker :
    ∀ (ls : List String),
      (∀ l ∈ ls, pyStrip l ≠ startMarker ∧ pyStrip l ≠ endMarker) →
      clearLoop true ls = ls
  | [], _ => rfl
  | l :: ls, h => by
    have hl := h l (by simp)
    rw [clearLoop, if_neg hl.1, if_neg hl.2, if_pos rfl,
      clearLoop_true_no_marker ls (fun x hx => h x (by simp [hx]))]

theorem clearLoop_true_append (rest : List String) :
    ∀ (A : List String),
      (∀ l ∈ A, pyStrip l ≠ startMarker ∧ pyStrip l ≠ endMarker) →
      clearLoop true (A ++ rest) = A ++ clearLoop true rest
  | [], _ => rfl
  | l :: A, h => by
    have hl := h l (by simp)
    rw [List.cons_append, clearLoop, if_neg hl.1, if_neg hl.2, if_pos rfl,
      clearLoop_true_append rest A (fun x hx => h x (by simp [hx])),
      List.cons_append]

theorem clearLoop_false_skip (rest : List String) :
    ∀ (B : List String),
      (∀ l ∈ B, pyStrip l ≠ endMarker) →
      clearLoop false (B ++ rest) = clearLoop false rest
  | [], _ => rfl
  | l :: B, h => by
    have hl := h l (by simp)
    have ih := clearLoop_false_skip rest B (fun x hx => h x (by simp [hx]))
    rw [List.cons_append, clearLoop]
    by_cases hs : pyStrip l = startMarker
    · rw [if_pos hs]; exact ih
    · rw [if_neg hs, if_neg hl]; exact ih

theorem clearLoop_false_drop (B : List String)
    (h : ∀ l ∈ B, pyStrip l ≠ endMarker) : clearLoop false B = [] := by
  have := clearLoop_false_skip [] B h
  rwa [List.append_nil] at this

theorem mem_clearLoop_no_marker :
    ∀ (ls : List String) (w : Bool) (l : String), l ∈ clearLoop w ls →
      pyStrip l ≠ startMarker ∧ pyStrip l ≠ endMarker
  | [], _, _, h => by cases h
  | x :: ls, w, l, h => by
    rw [clearLoop] at h
    by_cases hs : pyStrip x = startMarker
    · rw [if_pos hs] at h; exact mem_clearLoop_no_marker ls false l h
    · rw [if_neg hs] at h
      by_cases he : pyStrip x = endMarker
      · rw [if_pos he] at h; exact mem_clearLoop_no_marker ls true l h
      · rw [if_neg he] at h
        cases w with
        | false => exact mem_clearLoop_no_marker ls false l (by simpa using h)
        | true =>
          simp only [if_pos] at h
          rcases List.mem_cons.mp h with rfl | h
          · exact ⟨hs, he⟩
          · exact mem_clearLoop_no_marker ls true l h

theorem clear_system_hosts_idem (ls : List String) :
    clear_system_hosts (clear_system_hosts ls) = clear_system_hosts ls :=
  clearLoop_true_no_marker _ (fun l hl => mem_clearLoop_no_marker ls true l hl)

theorem clear_file_idem (io_ok : Bool) (ls : List String) :
    clear_file io_ok (clear_file io_ok ls) = clear_file io_ok ls := by
  cases io_ok with
  | false => rfl
  | true => exact clear_system_hosts_idem ls

theorem wordsAux_chars (l : List Char) :
    ∀ (cur : List Char), (∀ c ∈ cur, isPySpace c = false) →
      ∀ w ∈ wordsAux cur l, w ≠ [] ∧ ∀ c ∈ w, isPySpace c = false := by
  induction l with
  | nil =>
    intro cur hcur w hw
    rw [wordsAux] at hw
    by_cases hc : cur.isEmpty
    · simp [hc] at hw
    · rw [if_neg hc] at hw
      have hne : cur ≠ [] := by intro h; rw [h] at hc; simp at hc
      have hwe : w = cur.reverse := by simpa using hw
      rw [hwe]
      exact ⟨by simpa using hne, fun d hd => hcur d (List.mem_reverse.mp hd)⟩
  | cons c cs ih =>
    intro cur hcur w hw
    rw [wordsAux] at hw
    by_cases hsp : isPySpace c
    · rw [if_pos hsp] at hw
      by_cases hc : cur.isEmpty
      · rw [if_pos hc] at hw
        exact ih [] (by simp) w hw
      · rw [if_neg hc] at hw
        have hne : cur ≠ [] := by intro h; rw [h] at hc; simp at hc
        rcases List.mem_cons.mp hw with rfl | hw
        · exact ⟨by simpa using hne, fun d hd => hcur d (List.mem_reverse.mp hd)⟩
        · exact ih [] (by simp) w hw
    · rw [if_neg hsp] at hw
      refine ih (c :: cur) ?_ w hw
      intro d hd
      rcases List.mem_cons.mp hd with rfl | hd
      · simpa using hsp
      · exact hcur d hd

theorem words_chars (l : List Char) :
    ∀ w ∈ words l, w ≠ [] ∧ ∀ c ∈ w, isPySpace c = false :=
  wordsAux_chars l [] (by simp)

theorem dropWhile_of_all_false :
    ∀ (w : List Char), (∀ c ∈ w, isPySpace c = false) →
      w.dropWhile isPySpace = w := by
  intro w h
  cases w with
  | nil => rfl
  | cons c cs => rw [List.dropWhile_cons, h c (by simp)]; simp

theorem pyStrip_of_all_false (w : List Char) (h : ∀ c ∈ w, isPySpace c = false) :
    pyStrip (String.mk w) = String.mk w := by
  have h1 : (String.mk w).toList = w := rfl
  have h2 : ∀ c ∈ w.reverse, isPySpace c = false := by
    intro c hc; exact h c (List.mem_reverse.mp hc)
  rw [pyStrip, h1, dropWhile_of_all_false w h, dropWhile_of_all_false _ h2,
    List.reverse_reverse]

theorem pySplit_words (s : String) :
    ∀ w ∈ pySplit s, w ≠ "" ∧ pyStrip w = w := by
  intro w hw
  rcases List.mem_map.mp hw with ⟨cs, hcs, rfl⟩
  have hc := words_chars s.toList cs hcs
  refine ⟨?_, pyStrip_of_all_false cs hc.2⟩
  intro h
  apply hc.1
  have : (String.mk cs).toList = ("" : String).toList := by rw [h]
  simpa using this

def c1File : List String := ["127.0.0.1\tlocalhost"]

def c1Res : String → FetchResult := fun _ => FetchResult.exn

/-- The file after one successful update cycle from c1File with bulk text
"1.2.3.4\tfoo.bar" and a failing domain resolution. -/
def c1Once : List String :=
  (update_hosts none c1File (some "1.2.3.4\tfoo.bar") c1Res ["x.example.com"] true).2

/-- The file after running the same update cycle a second time. -/
def c1Twice : List String :=
  (update_hosts none c1Once (some "1.2.3.4\tfoo.bar") c1Res ["x.example.com"] true).2

/-- Claim C1: the update cycle is claimed to strip-then-append and hence be
idempotent on the owned block.  The code appends without stripping: after one
run the file holds one marker-delimited block, after a second identical run it
holds two, and the file differs — the cycle is not idempotent on the owned
block. -/
theorem C1_update_cycle_not_idempotent :
    markerCount c1Once = 1 ∧ markerCount c1Twice = 2 ∧ c1Twice ≠ c1Once := by
  decide

/-- Claim C2: update_hosts is claimed never to propagate an exception.  Its
first statement calls self._read_system_hosts(), a method defined nowhere in
the repository and outside any try/except, so every invocation raises
AttributeError to the caller (the file is untouched at that point). -/
theorem C2_update_hosts_always_raises (file : List String) (bulk : Option String)
    (res : String → FetchResult) (domains : List String) (io_ok : Bool) :
    update_hosts read_system_hosts_exn file bulk res domains io_ok =
      (some PyExn.attributeError, file) := rfl

def c3File : List String :=
  ["127.0.0.1\tlocalhost", startMarker, "1.2.3.4\tfoo.bar", endMarker, "::1\tip6-localhost"]

/-- Claim C3: starting from a file with exactly one owned block, a single
update cycle — one of the system's operations — leaves the file with two
start-marker lines, violating the claimed at-most-one-block invariant
(the write appends a fresh block instead of replacing the existing one). -/
theorem C3_update_duplicates_block :
    markerCount c3File = 1 ∧
    markerCount ((update_hosts none c3File (some "5.6.7.8\tbar.baz")
      (fun _ => FetchResult.exn) [] true).2) = 2 := by
  decide

/-- Claim C4 counterexample: the claim says that when no start marker is
present the strip returns the line sequence unchanged; but a stray end-marker
line (with no start marker anywhere) is deleted by _clear_system_hosts. -/
theorem C4_counterexample :
    clear_system_hosts ["127.0.0.1\tlocalhost", "# BetterHostsPlugin End"] =
      ["127.0.0.1\tlocalhost"] ∧
    clear_system_hosts ["127.0.0.1\tlocalhost", "# BetterHostsPlugin End"] ≠
      ["127.0.0.1\tlocalhost", "# BetterHostsPlugin End"] := by
  decide

/-- Claim C4 (amended): _clear_system_hosts removes every marker line and every
line between a start marker and the next end marker; in particular (1) a file
with no line stripping to either marker is returned unchanged, (2) for a file
A ++ [start] ++ B ++ [end] ++ C with A marker-free and B end-marker-free, the
result is A followed by the (recursively) stripped C — lines after the first
block are re-scanned, not returned verbatim — and (3) a start marker with no
matching end marker removes everything from the marker to end-of-file while
preserving the lines before it. -/
theorem C4_strip_amended (ls A B C : List String) (s e : String) :
    ((∀ l ∈ ls, pyStrip l ≠ startMarker ∧ pyStrip l ≠ endMarker) →
      clear_system_hosts ls = ls) ∧
    ((∀ l ∈ A, pyStrip l ≠ startMarker ∧ pyStrip l ≠ endMarker) →
      pyStrip s = startMarker → (∀ l ∈ B, pyStrip l ≠ endMarker) →
      pyStrip e = endMarker →
      clear_system_hosts (A ++ (s :: (B ++ (e :: C)))) =
        A ++ clear_system_hosts C) ∧
    ((∀ l ∈ A, pyStrip l ≠ startMarker ∧ pyStrip l ≠ endMarker) →
      pyStrip s = startMarker → (∀ l ∈ B, pyStrip l ≠ endMarker) →
      clear_system_hosts (A ++ (s :: B)) = A) := by
  refine ⟨clearLoop_true_no_marker ls, ?_, ?_⟩
  · intro hA hs hB he
    rw [clear_system_hosts, clearLoop_true_append _ A hA, clearLoop, if_pos hs,
      clearLoop_false_skip _ B hB, clearLoop, if_neg ?_, if_pos he]
    · rfl
    · rw [he]; decide
  · intro hA hs hB
    rw [clear_system_hosts, clearLoop_true_append _ A hA, clearLoop, if_pos hs,
      clearLoop_false_drop B hB, List.append_nil]

/-- Claim C4 witness: the amended characterization applied to a concrete
marker-free file, a concrete one-block file, and a concrete unterminated
file. -/
theorem C4_strip_amended_witness :
    clear_system_hosts ["a"] = ["a"] ∧
    clear_system_hosts
        (["a"] ++ (startMarker :: (["b"] ++ (endMarker :: ["c"])))) =
      ["a"] ++ clear_system_hosts ["c"] ∧
    clear_system_hosts (["a"] ++ (startMarker :: ["b"])) = ["a"] := by
  have h := C4_strip_amended ["a"] ["a"] ["b"] ["c"] startMarker endMarker
  exact ⟨h.1 (by decide), h.2.1 (by decide) (by decide) (by decide) (by decide),
    h.2.2 (by decide) (by decide) (by decide)⟩

/-- Claim C5: hosts_content as built by the update cycle is the bulk text
verbatim as first segment (when the bulk fetch succeeded) followed, for each
domain in list order, by one "{ip}\t{domain}" line per returned address in
returned order; a domain whose request had a non-200 status, raised, or
returned zero A records contributes zero lines. -/
theorem C5_buildContent_shape (bulk : Option String) (res : String → FetchResult)
    (domains : List String) :
    buildContent bulk res domains =
      (match bulk with | some t => [t] | none => []) ++
        domains.flatMap (fun d => domainLines d (res d)) ∧
    ∀ d, res d = FetchResult.badStatus ∨ res d = FetchResult.exn ∨
        res d = FetchResult.ok [] →
      domainLines d (res d) = [] := by
  constructor
  · rw [buildContent.eq_def]
    exact foldl_append_flatMap _ domains _
  · intro d h
    rcases h with h | h | h <;> rw [h] <;> rfl

/-- Claim C5 witness: the end-to-end scenario of the spec — bulk line
"1.2.3.4\tfoo.bar", one domain resolving to ["5.6.7.8"] — yields exactly the
two expected lines in order, and a failed domain contributes no lines. -/
theorem C5_buildContent_shape_witness :
    buildContent (some "1.2.3.4\tfoo.bar")
        (fun _ => FetchResult.ok ["5.6.7.8"]) ["x.example.com"] =
      ["1.2.3.4\tfoo.bar"] ++ ["5.6.7.8\tx.example.com"] ∧
    domainLines "x.example.com" FetchResult.exn = [] := by
  constructor
  · have h := (C5_buildContent_shape (some "1.2.3.4\tfoo.bar")
      (fun _ => FetchResult.ok ["5.6.7.8"]) ["x.example.com"]).1
    rw [h]; rfl
  · exact (C5_buildContent_shape none (fun _ => FetchResult.exn) []).2
      "x.example.com" (Or.inr (Or.inl rfl))

theorem flatMap_eq_nil_of_forall (f : String → List String) :
    ∀ (l : List String), (∀ d ∈ l, f d = []) → l.flatMap f = []
  | [], _ => rfl
  | d :: l, h => by
    rw [List.flatMap_cons, h d (by simp),
      flatMap_eq_nil_of_forall f l (fun x hx => h x (by simp [hx]))]
    rfl

/-- Claim C6: when the bulk fetch failed and every per-domain resolution
failed (non-200 or exception) or returned zero addresses, hosts_content stays
empty, update_hosts takes the "no update needed" branch, and the hosts file
is exactly what it was before the cycle. -/
theorem C6_no_content_no_write (read_exn : Option PyExn) (file : List String)
    (res : String → FetchResult) (domains : List String) (io_ok : Bool)
    (hall : ∀ d ∈ domains, res d = FetchResult.badStatus ∨
      res d = FetchResult.exn ∨ res d = FetchResult.ok []) :
    (update_hosts read_exn file none res domains io_ok).2 = file := by
  cases read_exn with
  | some e => rfl
  | none =>
    have hnil : ∀ d ∈ domains, domainLines d (res d) = [] := by
      intro d hd
      rcases hall d hd with h | h | h <;> rw [h] <;> rfl
    have hcontent : buildContent none res domains = [] := by
      show domains.foldl (fun acc d => acc ++ domainLines d (res d)) [] = []
      rw [foldl_append_flatMap, List.nil_append,
        flatMap_eq_nil_of_forall _ domains hnil]
    show (update_core file none res domains io_ok) = file
    rw [update_core, hcontent]
    rfl

/-- Claim C6 witness: a cycle whose bulk fetch failed and whose only domain
resolution raised leaves a concrete file untouched. -/
theorem C6_no_content_no_write_witness :
    (update_hosts none ["127.0.0.1\tlocalhost"] none (fun _ => FetchResult.exn)
      ["x.example.com"] true).2 = ["127.0.0.1\tlocalhost"] :=
  C6_no_content_no_write none ["127.0.0.1\tlocalhost"]
    (fun _ => FetchResult.exn) ["x.example.com"] true
    (fun _ _ => Or.inr (Or.inl rfl))

def c7State : PluginState :=
  { enabled := true, domain_list := defaultDomainList,
    schedule_interval := some "1hour", scheduler := none }

/-- Claim C7 counterexample: arming the scheduler twice with the same cadence
leaves two recurring update jobs on the one scheduler object (and the second
start() raises SchedulerAlreadyRunningError); nothing disarmed the first
timer, contradicting the claimed at-most-one-timer invariant. -/
theorem C7_counterexample :
    (setup_scheduler c7State).1 = none ∧
    (setup_scheduler c7State).2.scheduler.map Sched.jobs =
      some [Trigger.hours 1] ∧
    (setup_scheduler (setup_scheduler c7State).2).2.scheduler.map Sched.jobs =
      some [Trigger.hours 1, Trigger.hours 1] ∧
    (setup_scheduler (setup_scheduler c7State).2).1 =
      some PyExn.schedulerAlreadyRunning := by
  decide

/-- Claim C7 (amended): setup_scheduler never disarms a previously armed
timer: called while a running scheduler exists and the cadence is recognised,
it appends one more update job to the existing job list and then raises
SchedulerAlreadyRunningError from start(), so duplicate recurring timers
accumulate. -/
theorem C7_rearm_amended (st : PluginState) (s : Sched) (t : Trigger)
    (hs : st.scheduler = some s) (hrun : s.running = true)
    (ht : intervalOf st.schedule_interval = some t) :
    setup_scheduler st =
      (some PyExn.schedulerAlreadyRunning,
        { st with scheduler := some { jobs := s.jobs ++ [t], running := true } }) := by
  obtain ⟨jobs, running⟩ := s
  simp only at hrun
  rw [hrun] at hs
  simp [setup_scheduler, hs, ht, add_job, sched_start]

/-- Claim C7 witness: the amended statement applied to an armed one-job
scheduler state. -/
theorem C7_rearm_amended_witness :
    setup_scheduler
        { enabled := true, domain_list := defaultDomainList,
          schedule_interval := some "1hour",
          scheduler := some { jobs := [Trigger.hours 1], running := true } } =
      (some PyExn.schedulerAlreadyRunning,
        { enabled := true, domain_list := defaultDomainList,
          schedule_interval := some "1hour",
          scheduler := some ⟨[Trigger.hours 1, Trigger.hours 1], true⟩ }) := by
  rw [C7_rearm_amended
    { enabled := true, domain_list := defaultDomainList,
      schedule_interval := some "1hour",
      scheduler := some ⟨[Trigger.hours 1], true⟩ }
    ⟨[Trigger.hours 1], true⟩ (Trigger.hours 1) rfl rfl rfl]
  decide

def c8State : PluginState :=
  { enabled := true, domain_list := defaultDomainList,
    schedule_interval := some "1hour",
    scheduler := some { jobs := [Trigger.hours 1], running := true } }

def c8File : List String :=
  ["127.0.0.1\tlocalhost", startMarker, "1.2.3.4\tfoo.bar", endMarker]

/-- Claim C8 counterexample: with an armed scheduler, the first stop_service
succeeds but the second raises SchedulerNotRunningError — shutdown() is called
unguarded on the already-stopped scheduler object — so double-disable is not
error-free. -/
theorem C8_counterexample :
    (stop_service c8State c8File true).1 = none ∧
    (stop_service (stop_service c8State c8File true).2.1
      (stop_service c8State c8File true).2.2 true).1 =
      some PyExn.schedulerNotRunning := by
  decide

/-- Claim C8 (amended): if no scheduler object was ever created, calling
stop_service twice produces no error and the same final file; if a running
scheduler exists, the first call succeeds but the second raises
SchedulerNotRunningError from shutdown() before reaching the clear — the
hosts-file state after the second call nevertheless equals the state after
the first. -/
theorem C8_stop_twice_amended (st : PluginState) (file : List String)
    (io_ok : Bool) :
    (st.scheduler = none →
      (stop_service st file io_ok).1 = none ∧
      (stop_service (stop_service st file io_ok).2.1
        (stop_service st file io_ok).2.2 io_ok).1 = none ∧
      (stop_service (stop_service st file io_ok).2.1
        (stop_service st file io_ok).2.2 io_ok).2.2 =
        (stop_service st file io_ok).2.2) ∧
    (∀ s : Sched, st.scheduler = some s → s.running = true →
      (stop_service st file io_ok).1 = none ∧
      (stop_service (stop_service st file io_ok).2.1
        (stop_service st file io_ok).2.2 io_ok).1 =
        some PyExn.schedulerNotRunning ∧
      (stop_service (stop_service st file io_ok).2.1
        (stop_service st file io_ok).2.2 io_ok).2.2 =
        (stop_service st file io_ok).2.2) := by
  constructor
  · intro h
    simp [stop_service, h, clear_file_idem]
  · intro s hs hrun
    obtain ⟨jobs, running⟩ := s
    simp only at hrun
    rw [hrun] at hs
    simp [stop_service, hs, sched_shutdown]

/-- Claim C8 witness: the amended statement applied to a never-armed state and
to the armed state of the counterexample input. -/
theorem C8_stop_twice_amended_witness :
    (stop_service
      { enabled := false, domain_list := defaultDomainList,
        schedule_interval := none, scheduler := none } c8File true).1 = none ∧
    (stop_service (stop_service c8State c8File true).2.1
      (stop_service c8State c8File true).2.2 true).2.2 =
      (stop_service c8State c8File true).2.2 := by
  constructor
  · exact ((C8_stop_twice_amended
      { enabled := false, domain_list := defaultDomainList,
        schedule_interval := none, scheduler := none } c8File true).1 rfl).1
  · exact ((C8_stop_twice_amended c8State c8File true).2
      { jobs := [Trigger.hours 1], running := true } rfl rfl).2.2

def c9State : PluginState :=
  { enabled := true, domain_list := defaultDomainList,
    schedule_interval := some "1hour",
    scheduler := some { jobs := [Trigger.hours 1], running := true } }

def c9Config : Config :=
  { enabled := some false, domain_list := none, schedule_interval := none }

def c9File : List String :=
  ["127.0.0.1\tlocalhost", startMarker, "1.2.3.4\tfoo.bar", endMarker,
    "::1\tip6-localhost"]

/-- Claim C9 counterexample: reconfiguring with enabled=false strips the owned
block from the file but leaves the previously armed scheduler object running
with its job — this disable path never disarms the scheduler, contradicting
the claim. -/
theorem C9_counterexample :
    (init_plugin c9State (some c9Config) none none (fun _ => FetchResult.exn)
      true c9File).2.2 = ["127.0.0.1\tlocalhost", "::1\tip6-localhost"] ∧
    (init_plugin c9State (some c9Config) none none (fun _ => FetchResult.exn)
      true c9File).2.1.scheduler =
      some { jobs := [Trigger.hours 1], running := true } := by
  decide

/-- Claim C9 (amended): stop_service shuts the scheduler down (when one
exists and is running) and then strips the owned block and persists — and it
clears even when no scheduler was ever created; but the disable path through
init_plugin with enabled=false only strips the owned block: the scheduler
field, armed or not, is left untouched. -/
theorem C9_disable_amended (st : PluginState) (file : List String)
    (io_ok : Bool) (s : Sched) (c : Config) (read_exn : Option PyExn)
    (bulk : Option String) (res : String → FetchResult) :
    (st.scheduler = some s → s.running = true →
      stop_service st file io_ok =
        (none, { st with scheduler := some { s with running := false } },
          clear_file io_ok file)) ∧
    (st.scheduler = none →
      stop_service st file io_ok = (none, st, clear_file io_ok file)) ∧
    (c.enabled = some false →
      (init_plugin st (some c) read_exn bulk res io_ok file).1 = none ∧
      (init_plugin st (some c) read_exn bulk res io_ok file).2.2 =
        clear_file io_ok file ∧
      (init_plugin st (some c) read_exn bulk res io_ok file).2.1.scheduler =
        st.scheduler) := by
  refine ⟨?_, ?_, ?_⟩
  · intro hs hrun
    obtain ⟨jobs, running⟩ := s
    simp only at hrun
    rw [hrun] at hs ⊢
    simp [stop_service, hs, sched_shutdown]
  · intro h
    simp [stop_service, h]
  · intro hc
    simp [init_plugin, hc]

/-- Claim C9 witness: the amended statement applied to the armed state, to a
never-armed state, and to the enabled=false reconfiguration of the
counterexample. -/
theorem C9_disable_amended_witness :
    stop_service c9State c9File true =
      (none,
        { enabled := true, domain_list := defaultDomainList,
          schedule_interval := some "1hour",
          scheduler := some { jobs := [Trigger.hours 1], running := false } },
        ["127.0.0.1\tlocalhost", "::1\tip6-localhost"]) ∧
    (init_plugin c9State (some c9Config) none none (fun _ => FetchResult.exn)
      true c9File).1 = none := by
  constructor
  · rw [(C9_disable_amended c9State c9File true
      { jobs := [Trigger.hours 1], running := true } c9Config none none
      (fun _ => FetchResult.exn)).1 rfl rfl]
    decide
  · exact ((C9_disable_amended c9State c9File true
      { jobs := [Trigger.hours 1], running := true } c9Config none none
      (fun _ => FetchResult.exn)).2.2 rfl).1

/-- Claim C10: in init_plugin, an empty (or absent, hence defaulted-to-empty)
domain_list text keeps the effective domain list at the built-in default
["api.themoviedb.org", "image.tmdb.org"]; a non-empty text is split on runs of
whitespace, so every resulting domain is a non-empty string with no
surrounding whitespace. -/
theorem C10_domain_list (custom : String) :
    (custom = "" →
      next_domain_list defaultDomainList custom = defaultDomainList) ∧
    (∀ w ∈ next_domain_list defaultDomainList custom,
      w ≠ "" ∧ pyStrip w = w) := by
  constructor
  · intro h
    rw [next_domain_list, if_pos h]
  · intro w hw
    rw [next_domain_list] at hw
    by_cases h : custom = ""
    · rw [if_pos h] at hw
      simp [defaultDomainList] at hw
      rcases hw with rfl | rfl <;> exact ⟨by decide, by decide⟩
    · rw [if_neg h] at hw
      exact pySplit_words custom w hw

/-- Claim C10 witness: the empty text keeps the default list, and splitting
" tmdb.org\n" yields the whitespace-free non-empty domain "tmdb.org". -/
theorem C10_domain_list_witness :
    next_domain_list defaultDomainList "" = defaultDomainList ∧
    ("tmdb.org" ≠ "" ∧ pyStrip "tmdb.org" = "tmdb.org") := by
  refine ⟨(C10_domain_list "").1 rfl,
    (C10_domain_list " tmdb.org\n").2 "tmdb.org" ?_⟩
  decide

end BetterHosts
